import Mathlib

set_option autoImplicit false

/-!
Shallow embedding of the TaskFlow job system (Go sources) and proofs of
its specification claims.  Machine integers (`int`, `time.Duration`) are
modelled as `Int` with explicit wrap-around where it could matter; time
is an abstract `Int` of nanoseconds passed in as a parameter wherever the
source calls `time.Now()`; the cryptographically random job id is a
parameter wherever the source calls `GenerateJobID`.
-/

namespace Taskflow

/-! ## Job model (package `types`)

Go's `JobStatus` and `JobType` are string types; they are embedded as
`String` with the source's named constants, so that unknown tags remain
representable exactly as in Go. -/

def JobStatusPending : String := "pending"

def JobStatusProcessing : String := "processing"

def JobStatusCompleted : String := "completed"

def JobStatusFailed : String := "failed"

def JobStatusRetrying : String := "retrying"

def JobTypeEmail : String := "email"

def JobTypeImageResize : String := "image_resize"

def JobTypeWebhook : String := "webhook"

def JobTypeDataExport : String := "data_export"

/-- The deserialised view of a job payload, restricted to the fields the
validator (`validatePayloadStructure`) inspects.  A Go `json.Unmarshal`
leaves an absent field at its zero value, so an absent string field is
`""` and an absent slice is `[]`, exactly as the defaults here. -/
structure PayloadFields where
  recipient : String := ""   -- the Go field `To` (json "to"); `to` is a Lean keyword
  subject : String := ""
  imageUrl : String := ""
  sizes : List Int := []
  url : String := ""
  method : String := ""
  exportType : String := ""
  query : String := ""
  deriving DecidableEq, Repr

/-- `types.JobRequest`.  `payload` is `none` when the raw payload bytes are
absent or empty (`len(req.Payload) == 0` in Go), and `some p` when they are
well-formed JSON deserialising to the field view `p`. -/
structure JobRequest where
  jtype : String
  payload : Option PayloadFields
  maxAttempts : Int := 0
  scheduledAt : Option Int := none
  deriving DecidableEq, Repr

/-- `types.Job`.  `result` is the raw result bytes (abstract), optional
timestamps are `Option Int`. -/
structure Job where
  id : String
  jtype : String
  payload : Option PayloadFields := none
  status : String
  result : Option String := none
  error : String := ""
  attempts : Int
  maxAttempts : Int
  createdAt : Int
  updatedAt : Int
  scheduledAt : Int
  startedAt : Option Int := none
  completedAt : Option Int := none
  workerId : String := ""
  deriving DecidableEq, Repr

/-- `types.NewJob` (src/unnamed/part_002).  `id` stands for the call to
`GenerateJobID()` and `now` for `time.Now()`. -/
def NewJob (req : JobRequest) (id : String) (now : Int) : Job :=
  let job : Job :=
    { id := id
      jtype := req.jtype
      payload := req.payload
      status := JobStatusPending
      attempts := 0
      maxAttempts := 3
      createdAt := now
      updatedAt := now
      scheduledAt := now }
  let job := if req.maxAttempts > 0 then { job with maxAttempts := req.maxAttempts } else job
  match req.scheduledAt with
  | some t => { job with scheduledAt := t }
  | none => job

/-- `types.validatePayloadStructure` (src/unnamed/part_002).  The error
strings keep the source wording except that the single quotation marks of
the Go messages are dropped.  The webhook branch of the source also
defaults a local copy of `method` to POST, which has no observable
effect and is omitted. -/
def validatePayloadStructure (jobType : String) (p : PayloadFields) : Except String Unit :=
  if jobType = JobTypeEmail then
    if p.recipient = "" then Except.error "email to field is required"
    else if p.subject = "" then Except.error "email subject field is required"
    else Except.ok ()
  else if jobType = JobTypeImageResize then
    if p.imageUrl = "" then Except.error "image_url is required"
    else if p.sizes.length = 0 then Except.error "at least one size is required"
    else Except.ok ()
  else if jobType = JobTypeWebhook then
    if p.url = "" then Except.error "webhook URL is required"
    else Except.ok ()
  else if jobType = JobTypeDataExport then
    if p.exportType = "" then Except.error "export_type is required"
    else if p.query = "" then Except.error "query is required"
    else Except.ok ()
  else Except.ok ()

/-- `types.ValidateJobRequest` (src/unnamed/part_002). -/
def ValidateJobRequest (req : JobRequest) : Except String Unit :=
  if req.jtype = "" then Except.error "job type is required"
  else
    match req.payload with
    | none => Except.error "job payload is required"
    | some p =>
      if req.jtype = JobTypeEmail ∨ req.jtype = JobTypeImageResize ∨
          req.jtype = JobTypeWebhook ∨ req.jtype = JobTypeDataExport then
        validatePayloadStructure req.jtype p
      else Except.error ("invalid job type: " ++ req.jtype)

/-! ## Retryability classifier (package `types`) -/

/-- `types.hasSubstring` (src/unnamed/part_002): the loop
`for i := 0; i <= len(s)-len(substr); i++` testing `s[i:i+len(substr)] == substr`. -/
def hasSubstring (s substr : List Char) : Bool :=
  if substr.length ≤ s.length then
    (List.range (s.length - substr.length + 1)).any fun i => substr.isPrefixOf (s.drop i)
  else false

/-- `types.contains` (src/unnamed/part_002), byte for byte: the length
guard, the equality test, the prefix test `s[:len(substr)]`, the suffix
test `s[len(s)-len(substr):]` and the inner-substring scan.  Note that
every comparison in the source is an exact (case-sensitive) byte
comparison, although the source comment announces a case-insensitive
check. -/
def contains (s substr : List Char) : Bool :=
  substr.length ≤ s.length &&
    (s == substr ||
      (decide (substr.length < s.length) &&
        (s.take substr.length == substr ||
          s.drop (s.length - substr.length) == substr ||
          hasSubstring s substr)))

/-- The fixed vocabulary of `types.IsRetryableError`. -/
def retryablePatterns : List String :=
  ["connection refused", "timeout", "temporary failure",
   "network is unreachable", "no route to host", "connection reset"]

/-- `types.IsRetryableError` (src/unnamed/part_002); the Go `error` value
is embedded as `Option String` (`none` = nil error, `some msg` = an error
whose `Error()` is `msg`). -/
def IsRetryableError : Option String → Bool
  | none => false
  | some msg => retryablePatterns.any fun p => contains msg.data p.data

/-! ## Retry backoff (package `queue`) -/

/-- Signed 64-bit wrap-around, the semantics of Go `int64` overflow. -/
def int64wrap (x : Int) : Int := (x + 2 ^ 63) % 2 ^ 64 - 2 ^ 63

/-- `queue.calculateRetryDelay` (src/internal/queue/redis.go), in
nanoseconds:  `base * time.Duration(1<<uint(attempts-1))` capped at five
minutes.  `uint(attempts-1)` is the value modulo `2^64`; a shift count of
64 or more yields 0; the multiplication wraps as `int64`. -/
def calculateRetryDelay (attempts : Int) : Int :=
  let base : Int := 5000000000
  let sh : Nat := ((attempts - 1) % 2 ^ 64).toNat
  let pow2 : Int := if 64 ≤ sh then 0 else int64wrap (2 ^ sh)
  let delay := int64wrap (base * pow2)
  if delay > 300000000000 then 300000000000 else delay

/-! ## Broker state (package `queue`, `RedisQueue`)

The Redis key space touched by the queue is embedded as one record:
`pending` and `processing` are the two lists (head = left end, so `LPUSH`
prepends and `BRPOPLPUSH` pops the last element of `pending` and prepends
it to `processing`), `jobs` is the per-id record store
(`taskflow:job:<id>` keys) as an association list, and the five stats
counters are the fields of the `taskflow:stats` hash.  Key expiry (the
24 h TTL) is not modelled; a missing record is simply absent from
`jobs`. -/

/-- First-match lookup in an association list (a Redis `GET`). -/
def lookupKV : List (String × Job) → String → Option Job
  | [], _ => none
  | (k1, v1) :: rest, k => if k1 = k then some v1 else lookupKV rest k

/-- Overwrite-or-insert in an association list (a Redis `SET`). -/
def setKV : List (String × Job) → String → Job → List (String × Job)
  | [], k, v => [(k, v)]
  | (k1, v1) :: rest, k, v =>
    if k1 = k then (k, v) :: rest else (k1, v1) :: setKV rest k v

/-- Remove the first occurrence of an element (a Redis `LREM key 1 v`). -/
def lremFirst : List String → String → List String
  | [], _ => []
  | x :: rest, y => if x = y then rest else x :: lremFirst rest y

structure RedisState where
  pending : List String := []
  processing : List String := []
  jobs : List (String × Job) := []
  statTotal : Int := 0
  statPending : Int := 0
  statProcessing : Int := 0
  statCompleted : Int := 0
  statFailed : Int := 0
  deriving DecidableEq, Repr

/-- `RedisQueue.GetJob`: load and unmarshal the record; a missing key is
the `"job not found"` error. -/
def GetJob (st : RedisState) (jobID : String) : Except String Job :=
  match lookupKV st.jobs jobID with
  | none => Except.error ("job not found: " ++ jobID)
  | some job => Except.ok job

/-- `RedisQueue.requeueJobWithDelay`: stamp `scheduled_at = now + delay`,
write the record back and `LPUSH` the id onto the pending list.  The
source performs no other mutation — in particular it does not touch the
processing list or any counter. -/
def requeueJobWithDelay (st : RedisState) (job : Job) (delay now : Int) : RedisState :=
  let job := { job with scheduledAt := now + delay }
  { st with jobs := setKV st.jobs job.id job
            pending := job.id :: st.pending }

/-- `RedisQueue.FailJob`: load the record, bump `attempts`, set `error`
and `updated_at`; below `max_attempts` switch to Retrying and return via
`requeueJobWithDelay`, otherwise switch to Failed, set `completed_at`,
write back, `LREM` from processing and adjust the counters.  The final
status test on the counter pipeline is kept although the Retrying case
has already returned. -/
def FailJob (st : RedisState) (jobID errorMsg : String) (now : Int) :
    Except String RedisState :=
  match GetJob st jobID with
  | Except.error e => Except.error e
  | Except.ok job =>
    let job := { job with attempts := job.attempts + 1, error := errorMsg, updatedAt := now }
    if job.attempts < job.maxAttempts then
      let job := { job with status := JobStatusRetrying }
      Except.ok (requeueJobWithDelay st job (calculateRetryDelay job.attempts) now)
    else
      let job := { job with status := JobStatusFailed, completedAt := some now }
      let st := { st with jobs := setKV st.jobs job.id job }
      let st := { st with processing := lremFirst st.processing jobID }
      let st := { st with statProcessing := st.statProcessing - 1 }
      let st :=
        if job.status = JobStatusFailed then { st with statFailed := st.statFailed + 1 }
        else { st with statPending := st.statPending + 1 }
      Except.ok st

/-- `RedisQueue.DequeueJob`: `BRPOPLPUSH` from pending to processing
(`none` from an empty pending list is the timeout, returned as
`Except.ok none` — Go `nil, nil`); then load the record, and if it is
missing `LREM` the id back out of processing and return the lookup
error (Go `nil, err`); otherwise stamp the record Processing for this
worker and adjust the counters.  The returned pair is the state after
the call together with Go's `(job, error)` result. -/
def DequeueJob (st : RedisState) (workerID : String) (now : Int) :
    RedisState × Except String (Option Job) :=
  match st.pending.getLast? with
  | none => (st, Except.ok none)
  | some jobID =>
    let st := { st with pending := st.pending.dropLast
                        processing := jobID :: st.processing }
    match GetJob st jobID with
    | Except.error e =>
      ({ st with processing := lremFirst st.processing jobID }, Except.error e)
    | Except.ok job =>
      let job := { job with status := JobStatusProcessing, workerId := workerID,
                            startedAt := some now, updatedAt := now }
      let st := { st with jobs := setKV st.jobs job.id job }
      let st := { st with statPending := st.statPending - 1
                          statProcessing := st.statProcessing + 1 }
      (st, Except.ok (some job))

/-! ## Store (package `storage`) and the worker / service paths that the
claims touch.  The durable store is embedded as the same kind of
association list keyed by job id; `UpdateJobStore` is the full-row upsert
`storage.UpdateJob`. -/

def UpdateJobStore (store : List (String × Job)) (job : Job) : List (String × Job) :=
  setKV store job.id job

/-- The handler-error branch of `Worker.processNextJob`
(src/internal/worker/webhook_processor.go): call `queue.FailJob` (a
failure there is only logged), then write the job to the durable store
with `status = Failed`, the error string, `attempts` incremented,
`updated_at = now`, and `completed_at = now` when the incremented
attempts reach `max_attempts`.  The `IsRetryableError` test in the source
only drives a log line and has no state effect. -/
def workerHandleJobError (qst : RedisState) (store : List (String × Job))
    (job : Job) (errMsg : String) (now : Int) :
    RedisState × List (String × Job) :=
  let qst1 :=
    match FailJob qst job.id errMsg now with
    | Except.ok s => s
    | Except.error _ => qst
  let job := { job with status := JobStatusFailed, error := errMsg,
                        attempts := job.attempts + 1, updatedAt := now }
  let job := if job.attempts ≥ job.maxAttempts then { job with completedAt := some now } else job
  (qst1, UpdateJobStore store job)

/-- Outcome of the cancel endpoint, mirroring the branches of
`Server.cancelJob` (src/internal/api/handlers.go). -/
inductive CancelOutcome where
  | missingId
  | notFound
  | cannotCancel
  | cancelError (e : String)
  | done (qst : RedisState) (store : List (String × Job)) (job : Job)
  deriving DecidableEq, Repr

/-- `Server.cancelJob`: look the job up in the queue, falling back to the
store; refuse when it is already Completed or Failed; call the broker's
`FailJob` with message "Job cancelled by user"; then unconditionally
write the job to the store with `status = Failed` and that error string;
respond with that job record. -/
def cancelJob (qst : RedisState) (store : List (String × Job))
    (jobID : String) (now : Int) : CancelOutcome :=
  if jobID = "" then CancelOutcome.missingId
  else
    let found :=
      match GetJob qst jobID with
      | Except.ok j => some j
      | Except.error _ => lookupKV store jobID
    match found with
    | none => CancelOutcome.notFound
    | some job =>
      if job.status = JobStatusCompleted ∨ job.status = JobStatusFailed then
        CancelOutcome.cannotCancel
      else
        match FailJob qst jobID "Job cancelled by user" now with
        | Except.error e => CancelOutcome.cancelError e
        | Except.ok qst1 =>
          let job := { job with status := JobStatusFailed, error := "Job cancelled by user" }
          CancelOutcome.done qst1 (UpdateJobStore store job) job

/-! ## Concrete states used as inputs of the witness and counterexample
theorems. -/

/-- A processing email job on its last allowed attempt. -/
def jobC1 : Job :=
  { id := "j1", jtype := JobTypeEmail, status := JobStatusProcessing,
    attempts := 0, maxAttempts := 1, createdAt := 0, updatedAt := 0, scheduledAt := 0 }

def stC1 : RedisState :=
  { pending := [], processing := ["j1"], jobs := [("j1", jobC1)],
    statTotal := 1, statPending := 0, statProcessing := 1 }

/-- A processing webhook job with two attempts left. -/
def jobC2 : Job :=
  { id := "j2", jtype := JobTypeWebhook, status := JobStatusProcessing,
    attempts := 0, maxAttempts := 3, createdAt := 0, updatedAt := 0, scheduledAt := 0 }

def stC2 : RedisState :=
  { pending := [], processing := ["j2"], jobs := [("j2", jobC2)],
    statTotal := 1, statPending := 0, statProcessing := 1 }

def jobC3 : Job :=
  { id := "j3", jtype := JobTypeWebhook, status := JobStatusProcessing,
    attempts := 0, maxAttempts := 3, createdAt := 0, updatedAt := 0, scheduledAt := 0 }

def stC3 : RedisState :=
  { pending := [], processing := ["j3"], jobs := [("j3", jobC3)],
    statTotal := 1, statPending := 0, statProcessing := 1 }

/-- An image-resize request whose sizes list is non-empty but holds no
positive entry. -/
def reqC6 : JobRequest :=
  { jtype := JobTypeImageResize,
    payload := some { imageUrl := "https://example.com/image.jpg", sizes := [-1, 0] } }

def reqC6ok : JobRequest :=
  { jtype := JobTypeWebhook, payload := some { url := "https://example.com/hook" } }

/-- A pending id whose per-job record is absent from the broker. -/
def stC7 : RedisState := { pending := ["j7"], statTotal := 1, statPending := 1 }

def jobC8 : Job :=
  { id := "j8", jtype := JobTypeWebhook, status := JobStatusProcessing,
    attempts := 0, maxAttempts := 3, createdAt := 0, updatedAt := 0, scheduledAt := 0 }

def stC8 : RedisState :=
  { pending := [], processing := ["j8"], jobs := [("j8", jobC8)],
    statTotal := 1, statPending := 0, statProcessing := 1 }

/-- A request with a non-positive max-attempts override and no schedule. -/
def reqC9 : JobRequest := { jtype := JobTypeEmail, payload := some {}, maxAttempts := -2 }

instance {e a : Type} [DecidableEq e] [DecidableEq a] : DecidableEq (Except e a) := fun x y =>
  match x, y with
  | Except.ok u, Except.ok v =>
    if h : u = v then Decidable.isTrue (by rw [h])
    else Decidable.isFalse (fun hc => h (Except.ok.inj hc))
  | Except.error u, Except.error v =>
    if h : u = v then Decidable.isTrue (by rw [h])
    else Decidable.isFalse (fun hc => h (Except.error.inj hc))
  | Except.ok _, Except.error _ => Decidable.isFalse (fun hc => Except.noConfusion hc)
  | Except.error _, Except.ok _ => Decidable.isFalse (fun hc => Except.noConfusion hc)

/-! ## Theorems -/

/-- Writing a record and reading it back under the same key yields the
written record. -/
theorem lookupKV_setKV_self (l : List (String × Job)) (k : String) (v : Job) :
    lookupKV (setKV l k v) k = some v := by
  induction l with
  | nil => simp [setKV, lookupKV]
  | cons hd tl ih =>
    obtain ⟨k1, v1⟩ := hd
    by_cases h : k1 = k
    · simp [setKV, h, lookupKV]
    · simp [setKV, h, lookupKV, ih]

/-- Claim C1: `FailJob` increments `attempts` by one and sets `error` and
`updated_at`; when the incremented attempts are strictly below
`max_attempts` the record becomes Retrying and its id is re-enqueued onto
the pending list, otherwise the record becomes Failed with `completed_at`
set; in particular a job with `max_attempts = 1` is terminally Failed on
its first `FailJob`. -/
theorem FailJob_spec (st : RedisState) (jobID msg : String) (now : Int) (job : Job)
    (hget : lookupKV st.jobs jobID = some job) :
    ∃ st1, FailJob st jobID msg now = Except.ok st1 ∧
      ∃ j1, lookupKV st1.jobs job.id = some j1 ∧
        j1.attempts = job.attempts + 1 ∧ j1.error = msg ∧ j1.updatedAt = now ∧
        (job.attempts + 1 < job.maxAttempts →
          j1.status = JobStatusRetrying ∧ job.id ∈ st1.pending) ∧
        (¬ job.attempts + 1 < job.maxAttempts →
          j1.status = JobStatusFailed ∧ j1.completedAt = some now) ∧
        (job.maxAttempts = 1 → 0 ≤ job.attempts →
          j1.status = JobStatusFailed ∧ j1.completedAt = some now) := by
  unfold FailJob GetJob
  rw [hget]
  dsimp only
  split
  next h =>
    have h' : job.attempts + 1 < job.maxAttempts := h
    unfold requeueJobWithDelay
    refine ⟨_, rfl, _, lookupKV_setKV_self _ _ _, rfl, rfl, rfl,
      fun _ => ⟨rfl, List.mem_cons_self _ _⟩, fun hc => absurd h' hc, fun h1 h0 => ?_⟩
    omega
  next h =>
    have h' : ¬ job.attempts + 1 < job.maxAttempts := h
    refine ⟨_, rfl, ?_⟩
    split
    all_goals
      exact ⟨_, lookupKV_setKV_self _ _ _, rfl, rfl, rfl,
        fun hc => absurd hc h', fun _ => ⟨rfl, rfl⟩, fun _ _ => ⟨rfl, rfl⟩⟩

/-- Witness for C1 at a concrete one-attempt job: the first failure is
terminally Failed. -/
theorem FailJob_spec_witness :
    lookupKV stC1.jobs "j1" = some jobC1 ∧
    ∃ st1, FailJob stC1 "j1" "smtp down" 9 = Except.ok st1 ∧
      ∃ j1, lookupKV st1.jobs jobC1.id = some j1 ∧
        j1.attempts = jobC1.attempts + 1 ∧ j1.error = "smtp down" ∧ j1.updatedAt = 9 ∧
        (jobC1.attempts + 1 < jobC1.maxAttempts →
          j1.status = JobStatusRetrying ∧ jobC1.id ∈ st1.pending) ∧
        (¬ jobC1.attempts + 1 < jobC1.maxAttempts →
          j1.status = JobStatusFailed ∧ j1.completedAt = some 9) ∧
        (jobC1.maxAttempts = 1 → 0 ≤ jobC1.attempts →
          j1.status = JobStatusFailed ∧ j1.completedAt = some 9) :=
  ⟨rfl, FailJob_spec stC1 "j1" "smtp down" 9 jobC1 rfl⟩

/-- Claim C2 (code bug): in the Retrying branch `FailJob` returns through
`requeueJobWithDelay` before the clean-up pipeline runs, so the id stays
in the processing list, the processing counter is not decremented and the
pending counter is not incremented — although the pipeline even carries a
dead `else` arm that would increment pending for exactly this case.
Evaluated at a retryable concrete job. -/
theorem FailJob_retry_skips_cleanup :
    (FailJob stC2 "j2" "boom" 100).map
        (fun s => (s.processing, s.statProcessing, s.statPending, s.pending,
          (lookupKV s.jobs "j2").map Job.status)) =
      Except.ok (["j2"], 1, 0, ["j2"], some JobStatusRetrying) := by decide

/-- Counterexample to C3 as stated: a handler failure on a job with
`attempts + 1 < max_attempts` makes the broker record Retrying, yet the
record the worker writes to the durable store says Failed. -/
theorem worker_store_write_not_retrying :
    jobC3.attempts + 1 < jobC3.maxAttempts ∧
    ((lookupKV (workerHandleJobError stC3 [] jobC3 "boom" 7).1.jobs "j3").map Job.status =
      some JobStatusRetrying) ∧
    ((lookupKV (workerHandleJobError stC3 [] jobC3 "boom" 7).2 "j3").map Job.status =
      some JobStatusFailed) := by decide

/-- Claim C3 as amended: on a handler error the worker writes the job to
the store with status Failed unconditionally, carrying the incremented
attempts, the error string and `updated_at`; `completed_at` is set
exactly when the incremented attempts reach `max_attempts`. -/
theorem workerHandleJobError_store_write (qst : RedisState) (store : List (String × Job))
    (job : Job) (errMsg : String) (now : Int) :
    lookupKV (workerHandleJobError qst store job errMsg now).2 job.id =
      some { job with status := JobStatusFailed, error := errMsg,
                      attempts := job.attempts + 1, updatedAt := now,
                      completedAt :=
                        if job.attempts + 1 ≥ job.maxAttempts then some now
                        else job.completedAt } := by
  unfold workerHandleJobError UpdateJobStore
  dsimp only
  split
  · exact lookupKV_setKV_self _ _ _
  · exact lookupKV_setKV_self _ _ _

/-- Claim C4: for attempts k with 1 ≤ k ≤ 10 the retry delay is
min(5 s · 2^(k−1), 5 min) in nanoseconds. -/
theorem calculateRetryDelay_spec (k : Int) (h1 : 1 ≤ k) (h2 : k ≤ 10) :
    calculateRetryDelay k = min (5000000000 * 2 ^ (k - 1).toNat) 300000000000 := by
  interval_cases k <;> decide

/-- Witness for C4 at k = 7, the first capped step: the delay is 300 s. -/
theorem calculateRetryDelay_spec_witness :
    (1 : Int) ≤ 7 ∧ (7 : Int) ≤ 10 ∧
    calculateRetryDelay 7 = min (5000000000 * 2 ^ ((7 : Int) - 1).toNat) 300000000000 ∧
    calculateRetryDelay 7 = 300000000000 :=
  ⟨by decide, by decide, calculateRetryDelay_spec 7 (by decide) (by decide),
    (calculateRetryDelay_spec 7 (by decide) (by decide)).trans (by decide)⟩

/-- Claim C5 (code bug): the matching of `IsRetryableError` is
case-sensitive, contradicting both the spec and the source comment on
`contains`: the uppercase variant of a vocabulary word is classified
non-retryable while the lowercase form is retryable. -/
theorem IsRetryableError_case_sensitive :
    IsRetryableError (some "Connection Refused") = false ∧
    IsRetryableError (some "connection refused") = true := by decide

/-- Counterexample to C6 as stated: an image-resize payload whose sizes
list is non-empty but contains no positive integer passes validation. -/
theorem ValidateJobRequest_accepts_nonpositive_sizes :
    ValidateJobRequest reqC6 = Except.ok () ∧
    ∃ p, reqC6.payload = some p ∧ ¬ ∀ s ∈ p.sizes, 0 < s := by
  refine ⟨by decide, _, rfl, ?_⟩
  intro hall
  exact absurd (hall (-1) (by decide)) (by decide)

/-- Claim C6 as amended: validation succeeds exactly when the payload is
present and the type is a known tag whose required fields are non-empty —
for email `to` and `subject`, for image_resize `image_url` and a
non-empty `sizes` list (entry positivity is not checked), for webhook
`url`, for data_export `export_type` and `query`. -/
theorem ValidateJobRequest_ok_iff (req : JobRequest) :
    ValidateJobRequest req = Except.ok () ↔
      ∃ p, req.payload = some p ∧
        ((req.jtype = JobTypeEmail ∧ p.recipient ≠ "" ∧ p.subject ≠ "") ∨
         (req.jtype = JobTypeImageResize ∧ p.imageUrl ≠ "" ∧ p.sizes ≠ []) ∨
         (req.jtype = JobTypeWebhook ∧ p.url ≠ "") ∨
         (req.jtype = JobTypeDataExport ∧ p.exportType ≠ "" ∧ p.query ≠ "")) := by
  rcases req with ⟨t, payload, ma, sa⟩
  rcases payload with _ | p
  · simp [ValidateJobRequest]
    split <;> simp
  · simp only [ValidateJobRequest, validatePayloadStructure,
      JobTypeEmail, JobTypeImageResize, JobTypeWebhook, JobTypeDataExport,
      Option.some.injEq, exists_eq_left']
    split_ifs <;> simp_all [List.length_eq_zero]

/-- Witness for C6 (amended) at a concrete valid webhook request. -/
theorem ValidateJobRequest_ok_iff_witness :
    ValidateJobRequest reqC6ok = Except.ok () :=
  (ValidateJobRequest_ok_iff reqC6ok).mpr
    ⟨{ url := "https://example.com/hook" }, rfl, Or.inr (Or.inr (Or.inl ⟨rfl, by decide⟩))⟩

/-- Counterexample to C7 as stated: when the popped id has no job record,
`DequeueJob` does remove the id from processing but returns the lookup
error rather than the Nil-with-no-error outcome of an empty-queue
timeout. -/
theorem DequeueJob_missing_record_returns_error :
    (DequeueJob stC7 "worker-1" 3).2 = Except.error ("job not found: " ++ "j7") ∧
    (DequeueJob stC7 "worker-1" 3).2 ≠ Except.ok none ∧
    (DequeueJob stC7 "worker-1" 3).1.processing = [] := by decide

/-- Claim C7 as amended: when the lease pops an id whose record is
missing, the id is removed from the processing list again and the call
returns a nil job together with the not-found error (distinguishable from
a timeout). -/
theorem DequeueJob_missing_record_spec (st : RedisState) (workerID : String) (now : Int)
    (jobID : String) (hpop : st.pending.getLast? = some jobID)
    (hmiss : lookupKV st.jobs jobID = none) :
    DequeueJob st workerID now =
      ({ st with pending := st.pending.dropLast },
        Except.error ("job not found: " ++ jobID)) := by
  unfold DequeueJob GetJob
  rw [hpop]
  dsimp only
  rw [hmiss]
  dsimp only
  simp [lremFirst]

/-- Witness for C7 (amended) at a concrete state with a dangling pending
id. -/
theorem DequeueJob_missing_record_spec_witness :
    DequeueJob stC7 "worker-1" 3 =
      ({ stC7 with pending := stC7.pending.dropLast },
        Except.error ("job not found: " ++ "j7")) :=
  DequeueJob_missing_record_spec stC7 "worker-1" 3 "j7" rfl rfl

/-- Claim C8: whenever the cancel endpoint reaches its success response,
the record it writes to the durable store has status Failed and error
"Job cancelled by user" unconditionally, while the broker record of a job
with `attempts + 1 < max_attempts` was switched to Retrying by the
broker's `FailJob` — so store and broker can disagree on the cancelled
job. -/
theorem cancelJob_store_failed (qst : RedisState) (store : List (String × Job))
    (jobID : String) (now : Int) (qst1 : RedisState) (store1 : List (String × Job))
    (jobr : Job)
    (h : cancelJob qst store jobID now = CancelOutcome.done qst1 store1 jobr) :
    jobr.status = JobStatusFailed ∧ jobr.error = "Job cancelled by user" ∧
    lookupKV store1 jobr.id = some jobr ∧
    (∀ job, lookupKV qst.jobs jobID = some job → job.attempts + 1 < job.maxAttempts →
      ∃ bj, lookupKV qst1.jobs job.id = some bj ∧ bj.status = JobStatusRetrying) := by
  unfold cancelJob GetJob at h
  by_cases hid : jobID = ""
  · rw [if_pos hid] at h
    exact absurd h (fun hc => CancelOutcome.noConfusion hc)
  · rw [if_neg hid] at h
    cases hg : lookupKV qst.jobs jobID with
    | none =>
      rw [hg] at h
      dsimp only at h
      cases hs : lookupKV store jobID with
      | none =>
        rw [hs] at h
        exact absurd h (fun hc => CancelOutcome.noConfusion hc)
      | some job =>
        rw [hs] at h
        dsimp only at h
        split_ifs at h
        unfold FailJob GetJob at h
        rw [hg] at h
        dsimp only at h
        exact absurd h (fun hc => CancelOutcome.noConfusion hc)
    | some job =>
      rw [hg] at h
      dsimp only at h
      split_ifs at h
      unfold FailJob GetJob at h
      rw [hg] at h
      dsimp only at h
      by_cases hlt : job.attempts + 1 < job.maxAttempts
      · rw [if_pos hlt] at h
        dsimp only at h
        injection h with h1 h2 h3
        subst h1
        subst h2
        subst h3
        refine ⟨rfl, rfl, lookupKV_setKV_self _ _ _, ?_⟩
        intro job0 hj0 hlt0
        cases Option.some.inj hj0
        exact ⟨_, lookupKV_setKV_self _ _ _, rfl⟩
      · rw [if_neg hlt] at h
        dsimp only at h
        injection h with h1 h2 h3
        subst h1
        subst h2
        subst h3
        refine ⟨rfl, rfl, lookupKV_setKV_self _ _ _, ?_⟩
        intro job0 hj0 hlt0
        cases Option.some.inj hj0
        exact absurd hlt0 hlt

/-- Witness for C8 at a concrete processing job with retry budget left:
the cancel succeeds, the store says Failed, the broker says Retrying. -/
theorem cancelJob_store_failed_witness :
    ∃ qst1 store1 jobr, cancelJob stC8 [] "j8" 11 = CancelOutcome.done qst1 store1 jobr ∧
      (jobr.status = JobStatusFailed ∧ jobr.error = "Job cancelled by user" ∧
        lookupKV store1 jobr.id = some jobr ∧
        (∀ job, lookupKV stC8.jobs "j8" = some job → job.attempts + 1 < job.maxAttempts →
          ∃ bj, lookupKV qst1.jobs job.id = some bj ∧ bj.status = JobStatusRetrying)) ∧
      jobC8.attempts + 1 < jobC8.maxAttempts :=
  ⟨_, _, _, rfl, cancelJob_store_failed stC8 [] "j8" 11 _ _ _ rfl, by decide⟩

/-- Claim C9: `NewJob` defaults `max_attempts` to 3 when the requested
value is not positive and takes a positive request value verbatim; the
job starts Pending with zero attempts, `created_at = updated_at = now`,
and `scheduled_at` is `now` unless the request supplied a schedule. -/
theorem NewJob_spec (req : JobRequest) (id : String) (now : Int) :
    ((req.maxAttempts ≤ 0 → (NewJob req id now).maxAttempts = 3) ∧
     (0 < req.maxAttempts → (NewJob req id now).maxAttempts = req.maxAttempts)) ∧
    (NewJob req id now).status = JobStatusPending ∧
    (NewJob req id now).attempts = 0 ∧
    (NewJob req id now).createdAt = now ∧
    (NewJob req id now).updatedAt = now ∧
    (req.scheduledAt = none → (NewJob req id now).scheduledAt = now) ∧
    (∀ t, req.scheduledAt = some t → (NewJob req id now).scheduledAt = t) := by
  by_cases hma : req.maxAttempts > 0 <;>
    cases hsa : req.scheduledAt <;>
      simp [NewJob, hma, hsa]

/-- Witness for C9 at a request with a negative max-attempts override and
no schedule. -/
theorem NewJob_spec_witness :
    (NewJob reqC9 "id9" 42).maxAttempts = 3 ∧
    (NewJob reqC9 "id9" 42).status = JobStatusPending ∧
    (NewJob reqC9 "id9" 42).scheduledAt = 42 :=
  ⟨(NewJob_spec reqC9 "id9" 42).1.1 (by decide),
    (NewJob_spec reqC9 "id9" 42).2.1,
    (NewJob_spec reqC9 "id9" 42).2.2.2.2.2.1 rfl⟩

/-- Claim C10: a nil error is never classified retryable. -/
theorem IsRetryableError_nil : IsRetryableError none = false := rfl

end Taskflow
